import Mathlib

/-!
Shallow embedding of `src/lib/Subscription.js` (JsSIP `Subscription` dialog
class) and verification of the specification claims about it.

Modelling conventions:
- JavaScript numbers that only ever hold integers (`_cseq`, `_expires`,
  millisecond timestamps and delays, status codes) are modelled as `Int`/`Nat`.
- `Math.random()` is modelled as an explicit parameter `rand : ℚ` with the
  hypothesis `0 ≤ rand < 1` where a claim needs it; `Date.now()` as an explicit
  `now : Int` parameter (all reads within one synchronous call see one value).
- The mutable `this` is threaded explicitly as a `Subscription` value; emitted
  events, registry calls and sent requests are collected in a `List Eff`.
- Functions that can throw a JavaScript exception return
  `Except String (Subscription × List Eff)`.
- JS string operations used by `receiveRequest` (`indexOf`, `substr`, `trim`,
  `toUpperCase`, `parseInt`) are implemented on `List Char` below with the
  semantics JS gives them on the ASCII header values involved; `parseInt`
  returning `NaN` is modelled as `none` (a `NaN` candidate deadline makes the
  `refresh < this._subscriptionRefresh` comparison false, which is exactly the
  `none` branch).
-/

namespace JsSIPSpec

/-! ## JS string primitives -/

/-- First index `≥` the running counter at which `needle` is a prefix of the
remaining haystack, scanning left to right (JS `String.prototype.indexOf`). -/
def indexOfFromAux (needle : List Char) : List Char → Nat → Option Nat
  | [], i => if needle.isPrefixOf [] then some i else none
  | c :: rest, i =>
    if needle.isPrefixOf (c :: rest) then some i
    else indexOfFromAux needle rest (i + 1)

/-- JS `hay.indexOf(needle, start)` for a non-empty `needle`: the first index
`≥ start` where `needle` occurs, or `-1`. -/
def jsIndexOfFrom (hay needle : String) (start : Nat) : Int :=
  match indexOfFromAux needle.data (hay.data.drop start) 0 with
  | some k => ((start + k : Nat) : Int)
  | none => -1

/-- JS `hay.indexOf(needle)`. -/
def jsIndexOf (hay needle : String) : Int := jsIndexOfFrom hay needle 0

/-- JS `s.substr(start)` (suffix from character index `start`). -/
def jsSubstrFrom (s : String) (start : Nat) : String := String.mk (s.data.drop start)

/-- JS `s.substr(0, len)` (prefix of length `len`). -/
def jsSubstrTo (s : String) (len : Nat) : String := String.mk (s.data.take len)

/-- JS `s.trim()` on ASCII input: strip leading and trailing whitespace. -/
def jsTrim (s : String) : String :=
  String.mk (((s.data.dropWhile Char.isWhitespace).reverse.dropWhile
      Char.isWhitespace).reverse)

/-- JS `s.toUpperCase()` on ASCII input. -/
def jsToUpper (s : String) : String := String.mk (s.data.map Char.toUpper)

/-- Digit run at the head of the character list, as a number; `none` if the
run is empty. -/
def parseDigits (cs : List Char) : Option Nat :=
  let ds := cs.takeWhile Char.isDigit
  if ds.isEmpty then none
  else some (ds.foldl (fun acc c => acc * 10 + (c.toNat - 48)) 0)

/-- JS `parseInt(s)` (radix 10): skip leading whitespace, optional sign, then
a digit run; `NaN` (no digits) is modelled as `none`. -/
def jsParseInt (s : String) : Option Int :=
  let cs := s.data.dropWhile Char.isWhitespace
  match cs with
  | '-' :: rest => (parseDigits rest).map (fun n => -(n : Int))
  | '+' :: rest => (parseDigits rest).map (fun n => (n : Int))
  | _ => (parseDigits cs).map (fun n => (n : Int))

/-! ## Constants and external collaborators -/

/-- `MIN_SUBSCRIBE_EXPIRES = 10` (seconds), from the top of `Subscription.js`. -/
def MIN_SUBSCRIBE_EXPIRES : Int := 10

namespace Causes

/-- Modelled from the spec: `JsSIP_C.causes.REQUEST_TIMEOUT` lives in
`Constants.js`, which is not part of the sources; the spec's §7 taxonomy names
the cause token `REQUEST_TIMEOUT`. Only its identity matters here. -/
def REQUEST_TIMEOUT : String := "REQUEST_TIMEOUT"

/-- Modelled from the spec: `JsSIP_C.causes.CONNECTION_ERROR` from
`Constants.js` (not in the sources); the spec names it `CONNECTION_ERROR`. -/
def CONNECTION_ERROR : String := "CONNECTION_ERROR"

end Causes

/-- Modelled from the spec: `Utils.sipErrorCause` (in `Utils.js`, not part of
the sources) maps a final non-2xx status code to a cause value; per spec §7 the
cause is "mapped from a final non-2xx status code by an external cause-mapping
function". Injectivity in the status code is all that is used. -/
def sipErrorCause (status_code : Nat) : String :=
  "SIP_FAILURE_" ++ toString status_code

/-- The exception raised by `subscribe()` when called with no argument and no
request is in flight: line 108 reads `options.eventHandlers` without the
`options &&` guard used on lines 85-91, so `options === undefined` throws. -/
def optionsUndefinedError : String :=
  "TypeError: Cannot read properties of undefined (reading eventHandlers)"

/-- The exception raised by `terminate()`: its body (line 373) calls the bare
identifier `unsubscribe(options)` instead of `this.unsubscribe(options)`, and
no `unsubscribe` binding exists in module scope. -/
def terminateReferenceError : String :=
  "ReferenceError: unsubscribe is not defined"

/-! ## Data model -/

/-- Observable side effects of one synchronous call into the dialog: requests
handed to a `RequestSender`, notifications `emit`ted, and registry calls on
the owning UA, in program order. -/
inductive Eff where
  /-- A SUBSCRIBE `OutgoingRequest` was built with this `cseq` and header list
  and handed to a fresh `RequestSender` whose `send()` was invoked. -/
  | subscribeSent (cseq : Int) (headers : List String)
  /-- `emit('accepted', {originator, response})`. -/
  | emitAccepted (originator : String)
  /-- `emit('confirmed', {originator, request, info:{contentType, body}})`. -/
  | emitConfirmed (contentType : Option String) (body : Option String)
  /-- `emit('notify', {originator, request, info:{contentType, body}})`. -/
  | emitNotify (contentType : Option String) (body : Option String)
  /-- `emit('subscriptionExpiring', {originator: 'local'})`. -/
  | emitExpiring
  /-- `emit('ended', {originator, message, cause})`. -/
  | emitEnded (originator : String) (cause : Option String)
  /-- `this._ua.newSubscription(this)` (registry registration). -/
  | newSubscription
  /-- `this._ua.destroySubscription(this)` (registry deregistration). -/
  | destroySubscription
deriving DecidableEq, Repr

/-- `true` exactly on request-sending effects. -/
def Eff.isSend : Eff → Bool
  | .subscribeSent _ _ => true
  | _ => false

/-- `true` exactly on `'ended'` notifications. -/
def Eff.isEnded : Eff → Bool
  | .emitEnded _ _ => true
  | _ => false

/-- The mutable fields of a `Subscription` instance (underscore prefixes of the
source dropped), plus the `EventEmitter` listener registry as the multiset of
event names with a registered listener. -/
structure Subscription where
  /-- `this._event`. -/
  event : String
  /-- `this._subsuri` (the normalized target; `normalizeTarget` is external). -/
  subsuri : String
  /-- `this._contact`. -/
  contact : String
  /-- `this._expires` (seconds). -/
  expires : Int
  /-- `this._refresh`. -/
  refresh : Bool
  /-- `this._call_id`. -/
  call_id : String
  /-- `this._from_tag`. -/
  from_tag : String
  /-- `this._cseq`. -/
  cseq : Int
  /-- `this._subscriptionRefresh`: absolute ms deadline recorded by
  `scheduleRefreshTimer`. -/
  subscriptionRefresh : Int
  /-- `this._subscriptionTimer`: `none` models `null`; `some delay` models an
  armed `setTimeout` handle with the given ms delay. -/
  subscriptionTimer : Option Int
  /-- `this._subscribing`. -/
  subscribing : Bool
  /-- `this._state`. -/
  state : String
  /-- `this._active`. -/
  active : Bool
  /-- `this._accepted`. -/
  accepted : Bool
  /-- `this._extraHeaders`. -/
  extraHeaders : List String
  /-- Event names with at least one registered listener (`EventEmitter`);
  names are repeated per registered listener. -/
  handlers : List String
deriving DecidableEq, Repr

/-- The constructor (lines 12-50): bound collaborator values are parameters. -/
def Subscription.init (register_expires : Int)
    (target event contact call_id from_tag : String) : Subscription :=
  { event := event
    subsuri := target
    contact := contact
    expires := register_expires
    refresh := false
    call_id := call_id
    from_tag := from_tag
    cseq := 0
    subscriptionRefresh := 0
    subscriptionTimer := none
    subscribing := false
    state := "TRYING"
    active := false
    accepted := false
    extraHeaders := []
    handlers := [] }

/-- Getter `id` (lines 52-55): `this._id = this._call_id + this._from_tag`. -/
def Subscription.idGetter (s : Subscription) : String := s.call_id ++ s.from_tag

/-- Getter `active` (lines 62-65): `this._accepted && this._active`. -/
def Subscription.activeGetter (s : Subscription) : Bool := s.accepted && s.active

/-- `isEnded()` (lines 67-70): `!this._subscribing && !this._accepted`. -/
def Subscription.isEnded (s : Subscription) : Bool := !s.subscribing && !s.accepted

/-- `setExtraHeaders` (lines 72-80). With a typed `List String` argument the
`Array.isArray` branch cannot fire; `.slice()` is a copy. -/
def setExtraHeaders (extraHeaders : List String) (s : Subscription) : Subscription :=
  { s with extraHeaders := extraHeaders }

/-- The `options` argument of `subscribe` (cf. `Subscription.d.ts`):
`eventHandlers` is modelled as the list of event names it maps, since only
which events gain a listener is observable here. A missing (`undefined`)
field is `none`. -/
structure SubOptions where
  expires : Option Int
  refresh : Bool
  extraHeaders : Option (List String)
  eventHandlers : Option (List String)
deriving DecidableEq, Repr

/-- The arguments of `Subscription.js`'s `_unsubscribed(response, cause)`
(lines 412-423). The first argument is a response or, from `receiveRequest`,
a request; only its presence (JS truthiness) is observable, through the
`originator` computation. -/
def unsubscribed (messagePresent : Bool) (cause : Option String)
    (s : Subscription) : Subscription × List Eff :=
  ({ s with state := "TERMINATED", subscribing := false, active := false },
   [Eff.emitEnded (if messagePresent && cause.isSome then "remote" else "local") cause,
    Eff.destroySubscription])

/-- `_subscriptionFailure(response, cause)` (lines 401-410). -/
def subscriptionFailure (messagePresent : Bool) (cause : String)
    (s : Subscription) : Subscription × List Eff :=
  let s := { s with subscribing := false }
  if s.active then unsubscribed messagePresent (some cause) { s with active := false }
  else (s, [])

/-! ## Refresh timer -/

/-- The delay computed by `scheduleRefreshTimer` (lines 220-223) after the
floor clamp. For an integer `seconds`, JS float arithmetic gives exactly
`seconds*1000/2 = seconds*500` and `((seconds/2)-32)*1000 = seconds*500-32000`,
so both are folded to integer forms; `rand` stands for the `Math.random()`
draw. -/
def refreshDelay (seconds : Int) (rand : ℚ) : Int :=
  if 64 < seconds then
    seconds * 500 + ⌊((seconds * 500 - 32000 : Int) : ℚ) * rand⌋
  else seconds * 1000 - 5000

/-- `scheduleRefreshTimer(seconds)` (lines 209-243): clear any armed timer,
clamp `seconds` to `MIN_SUBSCRIBE_EXPIRES`, record `Date.now() + timeout` in
`_subscriptionRefresh` and arm a fresh timer. The body of the `setTimeout`
callback is `fireRefreshTimer` below. -/
def scheduleRefreshTimer (now : Int) (rand : ℚ) (seconds : Int)
    (s : Subscription) : Subscription :=
  let s := { s with subscriptionTimer := none }
  let seconds := if seconds < MIN_SUBSCRIBE_EXPIRES then MIN_SUBSCRIBE_EXPIRES else seconds
  let timeout := refreshDelay seconds rand
  { s with subscriptionRefresh := now + timeout, subscriptionTimer := some timeout }

/-! ## subscribe and its transaction-sender callbacks -/

/-- Lines 85-93 of `subscribe(options)`: each access is guarded with
`options &&`, so an `undefined` argument passes through harmlessly here;
a truthy `expires` is accepted only at `>= 90`, a truthy `refresh` sets
`_refresh`, a supplied `extraHeaders` replaces the stored list. -/
def applyOptions (options : Option SubOptions) (s : Subscription) : Subscription :=
  match options with
  | some o =>
    let s :=
      match o.expires with
      | some e => if e ≠ 0 ∧ 90 ≤ e then { s with expires := e } else s
      | none => s
    let s := if o.refresh then { s with refresh := true } else s
    match o.extraHeaders with
    | some hs => setExtraHeaders hs s
    | none => s
  | none => s

/-- `subscribe(options)` (lines 82-207) up to handing the request to the
sender, continuing after `applyOptions`. Line 95 is the in-flight guard, and
line 108 reads `options.eventHandlers` without a guard, so the `none`
(`undefined`) case throws once the guard is passed. -/
def subscribe (options : Option SubOptions) (s : Subscription) :
    Except String (Subscription × List Eff) :=
  let s := applyOptions options s
  if s.subscribing then
    Except.ok (s, [])
  else
    let extraHeaders := s.extraHeaders ++
      ["Event: " ++ s.event, "Contact: " ++ s.contact,
       "Expires: " ++ toString s.expires]
    match options with
    | none => Except.error optionsUndefinedError
    | some o =>
      let s :=
        match o.eventHandlers with
        | some evs => { s with handlers := s.handlers ++ evs }
        | none => s
      let newCseq := s.cseq + 1
      (Except.ok ({ s with cseq := newCseq, subscribing := true },
        [Eff.subscribeSent newCseq extraHeaders]))

/-- `subscribe`'s `onRequestTimeout` callback (lines 132-135). -/
def subscribeOnRequestTimeout (s : Subscription) : Subscription × List Eff :=
  subscriptionFailure false Causes.REQUEST_TIMEOUT s

/-- `subscribe`'s `onTransportError` callback (lines 136-139). -/
def subscribeOnTransportError (s : Subscription) : Subscription × List Eff :=
  subscriptionFailure false Causes.CONNECTION_ERROR s

/-- `subscribe`'s `onAuthenticated` callback (lines 141-144). -/
def subscribeOnAuthenticated (s : Subscription) : Subscription :=
  { s with cseq := s.cseq + 1 }

/-- A SIP response as observed through the accessors the code uses.
`expiresHeader` is `getHeader('expires')` pre-parsed: `none` for an absent (or
empty, hence falsy) header, otherwise its `Number(...)` value, which the
responses of interest carry as an integer. -/
structure Response where
  status_code : Nat
  cseq : Int
  expiresHeader : Option Int
deriving DecidableEq, Repr

/-- `subscribe`'s `onReceiveResponse` callback (lines 145-200). The regex
tests `/^1[0-9]{2}$/` and `/^2[0-9]{2}$/` on the decimal rendering of an
integer status code are the ranges 100-199 and 200-299. -/
def subscribeOnReceiveResponse (now : Int) (rand : ℚ) (response : Response)
    (s : Subscription) : Subscription × List Eff :=
  if response.cseq ≠ s.cseq then (s, [])
  else
    let s := { s with subscriptionTimer := none }
    if 100 ≤ response.status_code ∧ response.status_code ≤ 199 then (s, [])
    else if 200 ≤ response.status_code ∧ response.status_code ≤ 299 then
      let s := { s with subscribing := false }
      let expires := response.expiresHeader.getD s.expires
      let s := scheduleRefreshTimer now rand expires s
      if !s.accepted then
        ({ s with state := "ACCEPTED", accepted := true },
         [Eff.newSubscription, Eff.emitAccepted "remote"])
      else (s, [])
    else
      subscriptionFailure true (sipErrorCause response.status_code) s

/-! ## unsubscribe, terminate, transport closure -/

/-- `unsubscribe(options = {})` (lines 300-368) up to handing the request to
the sender. The body never reads `options`, so the parameter is unused. -/
def unsubscribe (options : Option SubOptions) (s : Subscription) :
    Subscription × List Eff :=
  if s.isEnded then (s, [])
  else
    let s := { s with state := "TERMINATED", active := false, accepted := false,
                      subscriptionTimer := none }
    let extraHeaders := s.extraHeaders ++ ["Contact: " ++ s.contact, "Expires: 0"]
    let newCseq := s.cseq + 1
    ({ s with cseq := newCseq }, [Eff.subscribeSent newCseq extraHeaders])

/-- `unsubscribe`'s `onRequestTimeout` callback (lines 334-337). -/
def unsubscribeOnRequestTimeout (s : Subscription) : Subscription × List Eff :=
  unsubscribed false (some Causes.REQUEST_TIMEOUT) s

/-- `unsubscribe`'s `onTransportError` callback (lines 338-341). -/
def unsubscribeOnTransportError (s : Subscription) : Subscription × List Eff :=
  unsubscribed false (some Causes.CONNECTION_ERROR) s

/-- `unsubscribe`'s `onAuthenticated` callback (lines 343-346). -/
def unsubscribeOnAuthenticated (s : Subscription) : Subscription :=
  { s with cseq := s.cseq + 1 }

/-- `unsubscribe`'s `onReceiveResponse` callback (lines 347-364). Unlike the
`subscribe` counterpart it performs no `cseq` comparison. A 2xx calls
`_unsubscribed(response)` with `cause` undefined. -/
def unsubscribeOnReceiveResponse (response : Response) (s : Subscription) :
    Subscription × List Eff :=
  if 100 ≤ response.status_code ∧ response.status_code ≤ 199 then (s, [])
  else if 200 ≤ response.status_code ∧ response.status_code ≤ 299 then
    unsubscribed true none s
  else
    unsubscribed true (some (sipErrorCause response.status_code)) s

/-- `terminate(options = {})` (lines 370-374). Its body is
`debug('terminate()'); unsubscribe(options);` — the bare identifier
`unsubscribe` is unbound in module scope (only `this.unsubscribe` exists), so
every call throws a `ReferenceError` before touching any state. -/
def terminate (options : Option SubOptions) (s : Subscription) :
    Except String (Subscription × List Eff) :=
  Except.error terminateReferenceError

/-- `onTransportClosed()` (lines 385-399). -/
def onTransportClosed (s : Subscription) : Subscription × List Eff :=
  let s := { s with subscribing := false, subscriptionTimer := none }
  if s.active then
    unsubscribed false (some Causes.CONNECTION_ERROR) { s with active := false }
  else (s, [])

/-! ## receiveRequest (in-dialog NOTIFY) -/

/-- An incoming request as observed through the accessors the code uses:
`getHeader('Content-Type')`, `body`, `getHeader('Subscription-State')`
(`none` for an absent, `undefined`, header). -/
structure Request where
  method : String
  contentType : Option String
  body : Option String
  subscriptionState : Option String
deriving DecidableEq, Repr

/-- Lines 264-283 of `receiveRequest`: the `Subscription-State` header
processing, for a truthy header string. `semi > 0` splits off the token before
the first `;` (trimmed, uppercased) into `_state`; with an `expires=` parameter
present after the `;` and the freshly assigned state equal to `"ACTIVE"`, the
candidate deadline `Date.now() + 1000*expires - 3000` re-arms the timer exactly
when it is below the recorded `_subscriptionRefresh`. -/
def applySubsState (now : Int) (rand : ℚ) (subsState : String)
    (s : Subscription) : Subscription :=
  let semi := jsIndexOf subsState ";"
  if 0 < semi then
    let s := { s with state := jsToUpper (jsTrim (jsSubstrTo subsState semi.toNat)) }
    let epos := jsIndexOfFrom subsState "expires=" semi.toNat
    if semi < epos ∧ s.state = "ACTIVE" then
      match jsParseInt (jsSubstrFrom subsState (epos.toNat + 8)) with
      | some expires =>
        let refresh := now + 1000 * expires - 3000
        if refresh < s.subscriptionRefresh then scheduleRefreshTimer now rand expires s
        else s
      | none => s
    else s
  else { s with state := jsToUpper (jsTrim subsState) }

/-- `receiveRequest(request)` (lines 248-298). Non-NOTIFY methods fall through
the single `if` with no effect. -/
def receiveRequest (now : Int) (rand : ℚ) (request : Request)
    (s : Subscription) : Subscription × List Eff :=
  if request.method = "NOTIFY" then
    let confirmedEffs :=
      if s.accepted && !s.active then
        [Eff.emitConfirmed request.contentType request.body]
      else []
    let s := if s.accepted && !s.active then { s with active := true } else s
    let s :=
      match request.subscriptionState with
      | some subsState =>
        if subsState ≠ "" then applySubsState now rand subsState s else s
      | none => s
    let effs := confirmedEffs ++ [Eff.emitNotify request.contentType request.body]
    if s.state = "TERMINATED" then
      let s := { s with subscriptionTimer := none }
      let p := unsubscribed true (some "Terminated") s
      (p.1, effs ++ p.2)
    else (s, effs)
  else (s, [])

/-- The `setTimeout` callback armed by `scheduleRefreshTimer` (lines 229-242):
null the handle; with a `subscriptionExpiring` listener registered, emit that
notification; otherwise, with `_refresh` set, call `this.subscribe()` — with
no argument. -/
def fireRefreshTimer (s : Subscription) : Except String (Subscription × List Eff) :=
  let s := { s with subscriptionTimer := none }
  if 0 < (s.handlers.filter (fun h => h = "subscriptionExpiring")).length then
    Except.ok (s, [Eff.emitExpiring])
  else if s.refresh then
    subscribe none s
  else
    Except.ok (s, [])

/-! ## Concrete dialog traces used by counterexamples and witnesses -/

/-- Result state of an exception-free call, with a default for the error case
(never taken on the traces below). -/
def okState (r : Except String (Subscription × List Eff)) (dflt : Subscription) :
    Subscription :=
  match r with
  | .ok p => p.1
  | .error _ => dflt

/-- A freshly constructed dialog (owner default expiry 60 s). -/
def s0 : Subscription :=
  Subscription.init 60 "sip:bob@example.com" "presence" "<sip:alice@192.0.2.1>"
    "abc123" "tag9"

/-- `subscribe({})`. -/
def optsEmpty : SubOptions := ⟨none, false, none, none⟩

/-- `subscribe({expires: 120})`. -/
def opts120 : SubOptions := ⟨some 120, false, none, none⟩

/-- `subscribe({refresh: true})`. -/
def optsRefresh : SubOptions := ⟨none, true, none, none⟩

/-- A 200 final response echoing `cseq` 1, without an `Expires` header. -/
def resp200 : Response := ⟨200, 1, none⟩

/-- After `subscribe({})` on the fresh dialog: request sent, `cseq` 1,
in-flight flag set. -/
def s1 : Subscription := okState (subscribe (some optsEmpty) s0) s0

/-- After the 200 response: `ACCEPTED`, registered, 55000 ms timer armed. -/
def s2 : Subscription := (subscribeOnReceiveResponse 0 0 resp200 s1).1

/-- A NOTIFY with `Subscription-State: terminated`. -/
def ntfTerm : Request :=
  ⟨"NOTIFY", some "application/pidf+xml", some "<presence/>", some "terminated"⟩

/-- A NOTIFY with `Subscription-State: active;expires=600`. -/
def ntfActive : Request :=
  ⟨"NOTIFY", some "application/pidf+xml", some "<presence/>", some "active;expires=600"⟩

/-- `s2` terminated remotely by a `Subscription-State: terminated` NOTIFY. -/
def s3 : Subscription := (receiveRequest 0 0 ntfTerm s2).1

/-- `s2` torn down locally by `unsubscribe()` (`cseq` 2, un-SUBSCRIBE sent). -/
def s4 : Subscription := (unsubscribe (some optsEmpty) s2).1

/-- `s4` after a late `Subscription-State: active;expires=600` NOTIFY: the
token is stored verbatim, so `state` is back to `"ACTIVE"`. -/
def s5 : Subscription := (receiveRequest 0 0 ntfActive s4).1

/-- `s2` confirmed by a first `active` NOTIFY: `_active` is set. -/
def s6 : Subscription := (receiveRequest 0 0 ntfActive s2).1

/-- A NOTIFY with `Subscription-State: active;expires=30`. -/
def req30 : Request := ⟨"NOTIFY", none, none, some "active;expires=30"⟩

/-- A NOTIFY carrying a body but no `Subscription-State` header. -/
def ntfPlain : Request := ⟨"NOTIFY", some "text/plain", some "hello", none⟩

/-- Like `s1` but subscribed with `{refresh: true}`. -/
def s1r : Subscription := okState (subscribe (some optsRefresh) s0) s0

/-- Like `s2` but with `autoRefresh` set: the state the refresh timer fires
on in the auto-renewal deployment mode. -/
def s2r : Subscription := (subscribeOnReceiveResponse 0 0 resp200 s1r).1

example : s1.subscribing = true ∧ s1.cseq = 1 := by decide
example : s2.accepted = true ∧ s2.state = "ACCEPTED" ∧ s2.subscribing = false := by decide
example : s2.subscriptionTimer = some 55000 ∧ s2.subscriptionRefresh = 55000 := by decide
example : s3.state = "TERMINATED" ∧ s3.accepted = true := by decide
example : s4.cseq = 2 ∧ s4.isEnded = true := by decide
example : s5.state = "ACTIVE" ∧ s5.cseq = 2 := by decide
example : s6.active = true ∧ s6.state = "ACTIVE" := by decide
example : s2r.refresh = true ∧ s2r.subscribing = false ∧ s2r.handlers = [] := by decide

/-! ## Claim theorems -/

/-- C1 counterexample: `TERMINATED` is not absorbing. On the concrete trace
`subscribe → 200 → NOTIFY terminated` the dialog's state is `TERMINATED`,
yet a subsequent `subscribe({})` call sends a further SUBSCRIBE request
(`_subscribing` was cleared and `subscribe` never consults `_state`),
refuting "no subsequent call to subscribe … sends a further request". -/
theorem C1_cex :
    s3.state = "TERMINATED" ∧
    (subscribe (some optsEmpty) s3).toOption.map
      (fun p => (p.2.filter Eff.isSend).length) = some 1 := by
  constructor
  · rfl
  · rfl

/-- C2 counterexample: a request timeout of the initial SUBSCRIBE (dialog
in flight, never active) produces no effect at all — `_subscriptionFailure`
only reaches `_unsubscribed` when `_active` is set — refuting "exactly one
'ended' notification is emitted … and the dialog is deregistered". -/
theorem C2_cex :
    s1.subscribing = true ∧ s1.active = false ∧
    subscribeOnRequestTimeout s1 = ({ s1 with subscribing := false }, []) := by
  refine ⟨rfl, rfl, ?_⟩
  rfl

/-- C3: when the refresh timer fires on `s2r` (auto-refresh set, no
`subscriptionExpiring` listener, timer armed), the no-argument `subscribe()`
call throws instead of sending a SUBSCRIBE: line 108 dereferences the
undefined `options`. -/
theorem C3_thm :
    fireRefreshTimer s2r = Except.error optionsUndefinedError ∧
    s2r.subscriptionTimer = some 55000 ∧ s2r.refresh = true ∧
    (s2r.handlers.filter (fun h => h = "subscriptionExpiring")).length = 0 ∧
    s2r.subscribing = false := by
  exact ⟨rfl, rfl, rfl, rfl, rfl⟩

/-- C4: `terminate` is not behaviorally equal to `unsubscribe` anywhere — it
always throws `ReferenceError` (bare `unsubscribe(options)` without `this.`),
while e.g. `unsubscribe` on a fresh dialog returns normally as a no-op. -/
theorem C4_thm :
    (∀ (opts : Option SubOptions) (s : Subscription),
        terminate opts s = Except.error terminateReferenceError) ∧
    unsubscribe (some optsEmpty) s0 = (s0, []) := by
  exact ⟨fun _ _ => rfl, rfl⟩

/-- C5 counterexample: with the in-flight guard set (`s1.subscribing`),
`subscribe({expires: 120})` sends nothing but still overwrites
`_expires` (lines 85-93 run before the line-95 guard), refuting "every
dialog field … is left unchanged". -/
theorem C5_cex :
    s1.subscribing = true ∧ s1.expires = 60 ∧
    subscribe (some opts120) s1 = Except.ok ({ s1 with expires := 120 }, []) := by
  exact ⟨rfl, rfl, rfl⟩

/-- C6 counterexample: `unsubscribe`'s response callback has no `cseq`
staleness check. On the trace `subscribe → 200 → unsubscribe → late NOTIFY
(active;expires=600)` the dialog has `state = "ACTIVE"` and `cseq = 2`; a
response echoing `cseq` 1 still reaches `_unsubscribed` and mutates `state`
to `"TERMINATED"`, refuting the claimed frame property for "any
transaction-sender response callback". -/
theorem C6_cex :
    resp200.cseq ≠ s5.cseq ∧ s5.state = "ACTIVE" ∧
    (unsubscribeOnReceiveResponse resp200 s5).1.state = "TERMINATED" := by
  refine ⟨by decide, rfl, rfl⟩

/-- `applyOptions` only ever touches `expires`, `refresh` and `extraHeaders`:
all other fields are preserved. -/
lemma applyOptions_frame (opts : Option SubOptions) (s : Subscription) :
    (applyOptions opts s).cseq = s.cseq ∧
    (applyOptions opts s).handlers = s.handlers ∧
    (applyOptions opts s).state = s.state ∧
    (applyOptions opts s).accepted = s.accepted ∧
    (applyOptions opts s).active = s.active ∧
    (applyOptions opts s).subscriptionTimer = s.subscriptionTimer ∧
    (applyOptions opts s).subscriptionRefresh = s.subscriptionRefresh ∧
    (applyOptions opts s).subscribing = s.subscribing := by
  unfold applyOptions setExtraHeaders
  rcases opts with _ | o
  · exact ⟨rfl, rfl, rfl, rfl, rfl, rfl, rfl, rfl⟩
  · dsimp only
    repeat' split
    all_goals exact ⟨rfl, rfl, rfl, rfl, rfl, rfl, rfl, rfl⟩

/-- C5 (amended): while `pendingRequest` (`_subscribing`) is set, `subscribe`
sends no request, registers no listener and leaves `cseq`, the state fields
and the refresh timer alone — but lines 85-93 still run before the guard, so
`_expires`, `_refresh` and `_extraHeaders` may be updated from `options`. -/
theorem C5_amended (opts : Option SubOptions) (s : Subscription)
    (h : s.subscribing = true) :
    ∃ s', subscribe opts s = Except.ok (s', []) ∧
      s'.cseq = s.cseq ∧ s'.handlers = s.handlers ∧ s'.state = s.state ∧
      s'.accepted = s.accepted ∧ s'.active = s.active ∧
      s'.subscriptionTimer = s.subscriptionTimer ∧
      s'.subscriptionRefresh = s.subscriptionRefresh ∧
      s'.subscribing = true := by
  obtain ⟨h1, h2, h3, h4, h5, h6, h7, h8⟩ := applyOptions_frame opts s
  refine ⟨applyOptions opts s, ?_, h1, h2, h3, h4, h5, h6, h7, h8.trans h⟩
  unfold subscribe
  rw [if_pos]
  exact h8.trans h

/-- C5 witness: the amended statement instantiated on the concrete in-flight
dialog `s1` with `{expires: 120}`. -/
theorem C5_witness :
    ∃ s', subscribe (some opts120) s1 = Except.ok (s', []) ∧
      s'.cseq = s1.cseq ∧ s'.handlers = s1.handlers ∧ s'.state = s1.state ∧
      s'.accepted = s1.accepted ∧ s'.active = s1.active ∧
      s'.subscriptionTimer = s1.subscriptionTimer ∧
      s'.subscriptionRefresh = s1.subscriptionRefresh ∧
      s'.subscribing = true :=
  C5_amended (some opts120) s1 (by decide)

/-- C6 (amended): the stale-response discard exists only in `subscribe`'s
response callback, where a mismatched echoed `cseq` leaves the dialog
completely unchanged and emits nothing; `unsubscribe`'s callback performs no
such check (see the C6 counterexample). -/
theorem C6_amended (now : Int) (rand : ℚ) (resp : Response) (s : Subscription)
    (h : resp.cseq ≠ s.cseq) :
    subscribeOnReceiveResponse now rand resp s = (s, []) := by
  unfold subscribeOnReceiveResponse
  rw [if_pos h]

/-- C6 witness: the amended statement instantiated on the fresh dialog `s0`
(current `cseq` 0) and a response echoing `cseq` 1. -/
theorem C6_witness : subscribeOnReceiveResponse 0 0 resp200 s0 = (s0, []) :=
  C6_amended 0 0 resp200 s0 (by decide)

/-- The uppercased, trimmed token of a `Subscription-State` header value as
lines 267-281 compute it: the part before the first `;` when one occurs at a
positive index, the whole (trimmed) value otherwise. -/
def subsStateToken (hdr : String) : String :=
  if 0 < jsIndexOf hdr ";" then
    jsToUpper (jsTrim (jsSubstrTo hdr (jsIndexOf hdr ";").toNat))
  else jsToUpper (jsTrim hdr)

/-- Whatever the header string, the subscription-state block leaves `_state`
equal to the parsed token. -/
lemma applySubsState_state_eq (now : Int) (rand : ℚ) (hdr : String) (s : Subscription) :
    (applySubsState now rand hdr s).state = subsStateToken hdr := by
  unfold applySubsState subsStateToken
  dsimp only
  by_cases hsemi : 0 < jsIndexOf hdr ";"
  · rw [if_pos hsemi, if_pos hsemi]
    by_cases hc : jsIndexOf hdr ";" < jsIndexOfFrom hdr "expires=" (jsIndexOf hdr ";").toNat ∧
        jsToUpper (jsTrim (jsSubstrTo hdr (jsIndexOf hdr ";").toNat)) = "ACTIVE"
    · rw [if_pos hc]
      rcases hp : jsParseInt (jsSubstrFrom hdr
          ((jsIndexOfFrom hdr "expires=" (jsIndexOf hdr ";").toNat).toNat + 8)) with _ | n
      · simp only [hp]
      · simp only [hp]
        by_cases hr : now + 1000 * n - 3000 < s.subscriptionRefresh
        · rw [if_pos hr]
          rfl
        · rw [if_neg hr]
    · rw [if_neg hc]
  · rw [if_neg hsemi, if_neg hsemi]

/-- For a token other than `"ACTIVE"` the subscription-state block only
stores the token: the expires re-arm is gated on `_state === "ACTIVE"`. -/
lemma applySubsState_not_active (now : Int) (rand : ℚ) (hdr : String) (s : Subscription)
    (h : subsStateToken hdr ≠ "ACTIVE") :
    applySubsState now rand hdr s = { s with state := subsStateToken hdr } := by
  unfold subsStateToken at h
  unfold applySubsState subsStateToken
  by_cases hsemi : 0 < jsIndexOf hdr ";"
  · rw [if_pos hsemi] at h ⊢
    rw [if_neg (fun hc => h hc.2), if_pos hsemi]
  · rw [if_neg hsemi] at h ⊢
    rw [if_neg hsemi]

/-- For an `active;…expires=n…` header the subscription-state block stores
`"ACTIVE"` and re-arms the timer via `scheduleRefreshTimer n` exactly when the
candidate deadline undercuts the recorded one. -/
lemma applySubsState_active (now : Int) (rand : ℚ) (hdr : String) (s : Subscription)
    (semi epos n : Int)
    (h1 : jsIndexOf hdr ";" = semi) (h2 : 0 < semi)
    (h3 : jsToUpper (jsTrim (jsSubstrTo hdr semi.toNat)) = "ACTIVE")
    (h4 : jsIndexOfFrom hdr "expires=" semi.toNat = epos) (h5 : semi < epos)
    (h6 : jsParseInt (jsSubstrFrom hdr (epos.toNat + 8)) = some n) :
    applySubsState now rand hdr s =
      if now + 1000 * n - 3000 < s.subscriptionRefresh
      then scheduleRefreshTimer now rand n { s with state := "ACTIVE" }
      else { s with state := "ACTIVE" } := by
  unfold applySubsState
  rw [h1, if_pos h2, h3, h4]
  rw [if_pos ⟨h5, rfl⟩]
  rw [h6]

/-- Bounds on the `Math.floor(q * Math.random())` jitter term for a positive
integer range `q` and a draw in `[0, 1)`. -/
lemma floor_jitter_bounds (q : ℤ) (hq : 0 < q) (rand : ℚ)
    (h0 : 0 ≤ rand) (h1 : rand < 1) :
    0 ≤ ⌊(q : ℚ) * rand⌋ ∧ ⌊(q : ℚ) * rand⌋ < q := by
  constructor
  · exact Int.le_floor.2 (by push_cast; exact mul_nonneg (by exact_mod_cast hq.le) h0)
  · exact Int.floor_lt.2 (mul_lt_of_lt_one_right (by exact_mod_cast hq) h1)

/-- C7: `scheduleRefreshTimer(seconds)` cancels any armed timer and arms
exactly one new one whose delay `d` follows the claimed formula after the
floor-10 clamp: for clamped `seconds > 64`, `d` is the midpoint
`seconds*1000/2` plus a jitter in `[0, (seconds/2 − 32)*1000)`; for clamped
`seconds ≤ 64`, `d = seconds*1000 − 5000` exactly; the recorded deadline is
`now + d`. In particular 70 gives a delay in `[35000, 35000+9000)` (indeed in
`[35000, 38000)`), 60 gives exactly 55000 and 5 (clamped to 10) exactly
5000 ms, for every jitter draw. -/
theorem C7_thm (s : Subscription) (now seconds : Int) (rand : ℚ)
    (h0 : 0 ≤ rand) (h1 : rand < 1) :
    (∃ d : Int,
      (scheduleRefreshTimer now rand seconds s).subscriptionTimer = some d ∧
      (scheduleRefreshTimer now rand seconds s).subscriptionRefresh = now + d ∧
      (64 < (if seconds < 10 then 10 else seconds) →
        (if seconds < 10 then 10 else seconds) * 500 ≤ d ∧
        d < (if seconds < 10 then 10 else seconds) * 500 +
            ((if seconds < 10 then 10 else seconds) * 500 - 32000)) ∧
      ((if seconds < 10 then 10 else seconds) ≤ 64 →
        d = (if seconds < 10 then 10 else seconds) * 1000 - 5000)) ∧
    (∃ d : Int, (scheduleRefreshTimer now rand 70 s).subscriptionTimer = some d ∧
      35000 ≤ d ∧ d < 35000 + 9000) ∧
    (scheduleRefreshTimer now rand 60 s).subscriptionTimer = some 55000 ∧
    (scheduleRefreshTimer now rand 5 s).subscriptionTimer = some 5000 := by
  have key : ∀ sec : Int, ∃ d : Int,
      (scheduleRefreshTimer now rand sec s).subscriptionTimer = some d ∧
      (scheduleRefreshTimer now rand sec s).subscriptionRefresh = now + d ∧
      (64 < (if sec < 10 then 10 else sec) →
        (if sec < 10 then 10 else sec) * 500 ≤ d ∧
        d < (if sec < 10 then 10 else sec) * 500 +
            ((if sec < 10 then 10 else sec) * 500 - 32000)) ∧
      ((if sec < 10 then 10 else sec) ≤ 64 →
        d = (if sec < 10 then 10 else sec) * 1000 - 5000) := by
    intro sec
    refine ⟨refreshDelay (if sec < 10 then 10 else sec) rand, ?_, ?_, ?_, ?_⟩
    · simp [scheduleRefreshTimer, MIN_SUBSCRIBE_EXPIRES]
    · simp [scheduleRefreshTimer, MIN_SUBSCRIBE_EXPIRES]
    · intro h64
      unfold refreshDelay
      rw [if_pos h64]
      obtain ⟨hf0, hf1⟩ :=
        floor_jitter_bounds ((if sec < 10 then 10 else sec) * 500 - 32000)
          (by omega) rand h0 h1
      constructor <;> omega
    · intro h64
      unfold refreshDelay
      rw [if_neg (not_lt.2 h64)]
  refine ⟨key seconds, ?_, ?_, ?_⟩
  · obtain ⟨d, hd1, _, hd3, _⟩ := key 70
    have h70 : ¬ ((70:Int) < 10) := by norm_num
    rw [if_neg h70] at hd3
    obtain ⟨hl, hr⟩ := hd3 (by norm_num)
    exact ⟨d, hd1, by omega, by omega⟩
  · obtain ⟨d, hd1, _, _, hd4⟩ := key 60
    have h60 : ¬ ((60:Int) < 10) := by norm_num
    rw [if_neg h60] at hd4
    rw [hd1, hd4 (by norm_num)]
    norm_num
  · obtain ⟨d, hd1, _, _, hd4⟩ := key 5
    have h5 : (5:Int) < 10 := by norm_num
    rw [if_pos h5] at hd4
    rw [hd1, hd4 (by norm_num)]
    norm_num

/-- C7 witness: the exact-delay instances at the concrete draw `1/2`. -/
theorem C7_witness :
    (scheduleRefreshTimer 0 (1/2) 60 s0).subscriptionTimer = some 55000 ∧
    (scheduleRefreshTimer 0 (1/2) 5 s0).subscriptionTimer = some 5000 :=
  ⟨(C7_thm s0 0 60 (1/2) (by norm_num) (by norm_num)).2.2.1,
   (C7_thm s0 0 60 (1/2) (by norm_num) (by norm_num)).2.2.2⟩

/-- C1 (amended): what does hold of termination: `receiveRequest` never sends
a request in any state; once `isEnded` (as after a completed
`unsubscribe`), `unsubscribe` is a no-op with no effects; and a single run of
the `_unsubscribed` finalizer emits exactly one `'ended'` and exactly one
deregistration. `TERMINATED` itself is not absorbing (see the C1
counterexample) and the finalizer can run again on a later terminated NOTIFY
or failure, since nothing gates it on prior termination. -/
theorem C1_amended :
    (∀ (now : Int) (rand : ℚ) (req : Request) (s : Subscription),
        (receiveRequest now rand req s).2.filter Eff.isSend = []) ∧
    (∀ (opts : Option SubOptions) (s : Subscription),
        s.isEnded = true → unsubscribe opts s = (s, [])) ∧
    (∀ (m : Bool) (c : Option String) (s : Subscription),
        ((unsubscribed m c s).2.filter Eff.isEnded).length = 1 ∧
        (unsubscribed m c s).2.count Eff.destroySubscription = 1) := by
  refine ⟨?_, ?_, ?_⟩
  · intro now rand req s
    rw [List.filter_eq_nil_iff]
    intro a ha
    unfold receiveRequest at ha
    repeat' split at ha
    all_goals simp only [apply_ite Prod.snd, unsubscribed] at ha
    all_goals try split at ha
    all_goals simp at ha
    all_goals rcases ha with rfl | rfl | rfl | rfl <;> simp [Eff.isSend]
  · intro opts s h
    unfold unsubscribe
    rw [if_pos h]
  · intro m c s
    unfold unsubscribed
    constructor
    · simp [Eff.isEnded]
    · simp [List.count_cons]

/-- C1 witness: the no-op branch of the amended statement on the already
ended fresh dialog `s0`. -/
theorem C1_witness : unsubscribe none s0 = (s0, []) :=
  C1_amended.2.1 none s0 (by decide)

/-- C2 (amended): every terminal failure outcome of a SUBSCRIBE transaction
(timeout, transport error, final non-1xx/non-2xx response with matching
`cseq`) invokes `_subscriptionFailure`, which always clears the in-flight
flag; when the dialog was active it emits exactly one `'ended'` whose cause is
`REQUEST_TIMEOUT`, `CONNECTION_ERROR`, or derived from the status code
respectively, followed by deregistration — but when the dialog was not active
(in particular for the initial SUBSCRIBE) the failure produces no
notification and no deregistration at all (see the C2 counterexample). -/
theorem C2_amended (s : Subscription) :
    ((subscribeOnRequestTimeout s).1.subscribing = false ∧
     (subscribeOnTransportError s).1.subscribing = false) ∧
    (s.active = true →
      (subscribeOnRequestTimeout s).2 =
        [Eff.emitEnded "local" (some Causes.REQUEST_TIMEOUT), Eff.destroySubscription] ∧
      (subscribeOnTransportError s).2 =
        [Eff.emitEnded "local" (some Causes.CONNECTION_ERROR), Eff.destroySubscription]) ∧
    (s.active = false →
      (subscribeOnRequestTimeout s).2 = [] ∧ (subscribeOnTransportError s).2 = []) ∧
    (∀ (now : Int) (rand : ℚ) (resp : Response),
      resp.cseq = s.cseq →
      ¬(100 ≤ resp.status_code ∧ resp.status_code ≤ 199) →
      ¬(200 ≤ resp.status_code ∧ resp.status_code ≤ 299) →
      (subscribeOnReceiveResponse now rand resp s).1.subscribing = false ∧
      (s.active = true →
        (subscribeOnReceiveResponse now rand resp s).2 =
          [Eff.emitEnded "remote" (some (sipErrorCause resp.status_code)),
           Eff.destroySubscription]) ∧
      (s.active = false → (subscribeOnReceiveResponse now rand resp s).2 = [])) := by
  refine ⟨⟨?_, ?_⟩, ?_, ?_, ?_⟩
  · unfold subscribeOnRequestTimeout subscriptionFailure unsubscribed
    cases h : s.active <;> simp [h]
  · unfold subscribeOnTransportError subscriptionFailure unsubscribed
    cases h : s.active <;> simp [h]
  · intro h
    unfold subscribeOnRequestTimeout subscribeOnTransportError subscriptionFailure
      unsubscribed
    simp [h]
  · intro h
    unfold subscribeOnRequestTimeout subscribeOnTransportError subscriptionFailure
      unsubscribed
    simp [h]
  · intro now rand resp hc h1 h2
    unfold subscribeOnReceiveResponse
    rw [if_neg (not_not_intro hc), if_neg h1, if_neg h2]
    unfold subscriptionFailure unsubscribed
    cases h : s.active <;> simp [h]

/-- C2 witness: the active-dialog branch of the amended statement on the
confirmed dialog `s6`. -/
theorem C2_witness :
    (subscribeOnRequestTimeout s6).2 =
      [Eff.emitEnded "local" (some Causes.REQUEST_TIMEOUT), Eff.destroySubscription] ∧
    (subscribeOnTransportError s6).2 =
      [Eff.emitEnded "local" (some Causes.CONNECTION_ERROR), Eff.destroySubscription] :=
  (C2_amended s6).2.1 (by decide)

/-- C8: on a NOTIFY whose `Subscription-State` parses to token `ACTIVE` with
an `expires=n` parameter, `receiveRequest` re-arms the refresh timer via
`scheduleRefreshTimer(n)` exactly when the candidate deadline
`now + n*1000 − 3000` is strictly below the recorded `_subscriptionRefresh`;
otherwise the armed timer and the recorded deadline are left untouched — the
NOTIFY can only shorten the refresh window. -/
theorem C8_thm (now : Int) (rand : ℚ) (req : Request) (s : Subscription)
    (hdr : String) (semi epos n : Int)
    (hm : req.method = "NOTIFY")
    (hs : req.subscriptionState = some hdr) (hne : hdr ≠ "")
    (h1 : jsIndexOf hdr ";" = semi) (h2 : 0 < semi)
    (h3 : jsToUpper (jsTrim (jsSubstrTo hdr semi.toNat)) = "ACTIVE")
    (h4 : jsIndexOfFrom hdr "expires=" semi.toNat = epos) (h5 : semi < epos)
    (h6 : jsParseInt (jsSubstrFrom hdr (epos.toNat + 8)) = some n) :
    (now + 1000 * n - 3000 < s.subscriptionRefresh →
      (receiveRequest now rand req s).1.subscriptionTimer =
        (scheduleRefreshTimer now rand n s).subscriptionTimer ∧
      (receiveRequest now rand req s).1.subscriptionRefresh =
        (scheduleRefreshTimer now rand n s).subscriptionRefresh) ∧
    (¬ now + 1000 * n - 3000 < s.subscriptionRefresh →
      (receiveRequest now rand req s).1.subscriptionTimer = s.subscriptionTimer ∧
      (receiveRequest now rand req s).1.subscriptionRefresh = s.subscriptionRefresh) := by
  unfold receiveRequest
  rw [if_pos hm]
  simp only [hs]
  rw [if_pos hne]
  cases hca : (s.accepted && !s.active)
  case false =>
    rw [if_neg Bool.false_ne_true, if_neg Bool.false_ne_true]
    rw [applySubsState_active now rand hdr s semi epos n h1 h2 h3 h4 h5 h6]
    by_cases hcond : now + 1000 * n - 3000 < s.subscriptionRefresh
    · rw [if_pos hcond]
      rw [if_neg (show ¬ (scheduleRefreshTimer now rand n
          { s with state := "ACTIVE" }).state = "TERMINATED" from by
        simp [scheduleRefreshTimer])]
      exact ⟨fun _ => ⟨rfl, rfl⟩, fun hcon => absurd hcond hcon⟩
    · rw [if_neg hcond]
      rw [if_neg (show ¬ ({ s with state := "ACTIVE" } :
          Subscription).state = "TERMINATED" from by simp)]
      exact ⟨fun hcon => absurd hcon hcond, fun _ => ⟨rfl, rfl⟩⟩
  case true =>
    rw [if_pos rfl, if_pos rfl]
    rw [applySubsState_active now rand hdr { s with active := true } semi epos n
      h1 h2 h3 h4 h5 h6]
    by_cases hcond : now + 1000 * n - 3000 < s.subscriptionRefresh
    · rw [if_pos hcond]
      rw [if_neg (show ¬ (scheduleRefreshTimer now rand n
          { s with active := true, state := "ACTIVE" }).state = "TERMINATED" from by
        simp [scheduleRefreshTimer])]
      exact ⟨fun _ => ⟨rfl, rfl⟩, fun hcon => absurd hcond hcon⟩
    · rw [if_neg hcond]
      rw [if_neg (show ¬ ({ s with active := true, state := "ACTIVE" } :
          Subscription).state = "TERMINATED" from by simp)]
      exact ⟨fun hcon => absurd hcon hcond, fun _ => ⟨rfl, rfl⟩⟩

/-- C8 witness: `Subscription-State: active;expires=30` against the accepted
dialog `s6`, whose recorded deadline 55000 is farther out than the candidate
`0 + 30000 − 3000`: the timer is re-armed via `scheduleRefreshTimer(30)`. -/
theorem C8_witness :
    (receiveRequest 0 0 req30 s6).1.subscriptionTimer =
      (scheduleRefreshTimer 0 0 30 s6).subscriptionTimer ∧
    (receiveRequest 0 0 req30 s6).1.subscriptionRefresh =
      (scheduleRefreshTimer 0 0 30 s6).subscriptionRefresh :=
  (C8_thm 0 0 req30 s6 "active;expires=30" 6 7 30 rfl rfl (by decide)
    rfl (by decide) rfl rfl (by decide) rfl).1 (by decide)

/-- C9: a NOTIFY whose `Subscription-State` token parses to `TERMINATED`
cancels any armed refresh timer, leaves the dialog `TERMINATED`, fires exactly
one `'ended'` notification with cause `"Terminated"` and originator
`"remote"`, and deregisters the dialog exactly once — from every prior dialog
state. -/
theorem C9_thm (now : Int) (rand : ℚ) (req : Request) (s : Subscription) (hdr : String)
    (hm : req.method = "NOTIFY") (hs : req.subscriptionState = some hdr) (hne : hdr ≠ "")
    (ht : subsStateToken hdr = "TERMINATED") :
    (receiveRequest now rand req s).1.subscriptionTimer = none ∧
    (receiveRequest now rand req s).1.state = "TERMINATED" ∧
    (receiveRequest now rand req s).2.filter Eff.isEnded =
      [Eff.emitEnded "remote" (some "Terminated")] ∧
    (receiveRequest now rand req s).2.count Eff.destroySubscription = 1 := by
  have hna : subsStateToken hdr ≠ "ACTIVE" := by rw [ht]; simp
  unfold receiveRequest
  rw [if_pos hm]
  simp only [hs]
  rw [if_pos hne]
  cases hca : (s.accepted && !s.active)
  case false =>
    rw [if_neg Bool.false_ne_true, if_neg Bool.false_ne_true]
    rw [applySubsState_not_active now rand hdr s hna, ht]
    rw [if_pos rfl]
    unfold unsubscribed
    refine ⟨rfl, rfl, ?_, ?_⟩
    · simp [Eff.isEnded]
    · simp [List.count_cons]
  case true =>
    rw [if_pos rfl, if_pos rfl]
    rw [applySubsState_not_active now rand hdr { s with active := true } hna, ht]
    rw [if_pos rfl]
    unfold unsubscribed
    refine ⟨rfl, rfl, ?_, ?_⟩
    · simp [Eff.isEnded]
    · simp [List.count_cons]

/-- C9 witness: the terminated NOTIFY `ntfTerm` against the accepted dialog
`s2`. -/
theorem C9_witness :
    (receiveRequest 0 0 ntfTerm s2).1.subscriptionTimer = none ∧
    (receiveRequest 0 0 ntfTerm s2).1.state = "TERMINATED" ∧
    (receiveRequest 0 0 ntfTerm s2).2.filter Eff.isEnded =
      [Eff.emitEnded "remote" (some "Terminated")] ∧
    (receiveRequest 0 0 ntfTerm s2).2.count Eff.destroySubscription = 1 :=
  C9_thm 0 0 ntfTerm s2 "terminated" rfl rfl (by decide) rfl

/-- C10: a NOTIFY without a `Subscription-State` header, received while the
state is not `TERMINATED`, emits exactly one `'notify'` with the content type
and body (preceded by a single `'confirmed'` exactly when the dialog was
accepted but not yet active), leaves `state`, the armed timer and the
recorded deadline unchanged, and does not terminate or deregister the
dialog. -/
theorem C10_thm (now : Int) (rand : ℚ) (req : Request) (s : Subscription)
    (hm : req.method = "NOTIFY") (hs : req.subscriptionState = none)
    (hstate : s.state ≠ "TERMINATED") :
    (receiveRequest now rand req s).1.state = s.state ∧
    (receiveRequest now rand req s).1.subscriptionTimer = s.subscriptionTimer ∧
    (receiveRequest now rand req s).1.subscriptionRefresh = s.subscriptionRefresh ∧
    (receiveRequest now rand req s).2 =
      (if s.accepted && !s.active then
        [Eff.emitConfirmed req.contentType req.body] else []) ++
      [Eff.emitNotify req.contentType req.body] ∧
    (receiveRequest now rand req s).2.filter Eff.isEnded = [] ∧
    (receiveRequest now rand req s).2.count Eff.destroySubscription = 0 := by
  unfold receiveRequest
  rw [if_pos hm]
  simp only [hs]
  cases hca : (s.accepted && !s.active)
  case false =>
    rw [if_neg Bool.false_ne_true, if_neg Bool.false_ne_true]
    rw [if_neg hstate]
    exact ⟨rfl, rfl, rfl, rfl, by simp [Eff.isEnded], by simp [List.count_cons]⟩
  case true =>
    rw [if_pos rfl, if_pos rfl]
    rw [if_neg (show ¬ ({ s with active := true } :
        Subscription).state = "TERMINATED" from hstate)]
    exact ⟨rfl, rfl, rfl, rfl, by simp [Eff.isEnded], by simp [List.count_cons]⟩

/-- C10 witness: a bare NOTIFY with body against the accepted, not yet
active dialog `s2`: one `'confirmed'` then one `'notify'`, nothing else. -/
theorem C10_witness :
    (receiveRequest 0 0 ntfPlain s2).1.state = s2.state ∧
    (receiveRequest 0 0 ntfPlain s2).1.subscriptionTimer = s2.subscriptionTimer ∧
    (receiveRequest 0 0 ntfPlain s2).1.subscriptionRefresh = s2.subscriptionRefresh ∧
    (receiveRequest 0 0 ntfPlain s2).2 =
      (if s2.accepted && !s2.active then
        [Eff.emitConfirmed ntfPlain.contentType ntfPlain.body] else []) ++
      [Eff.emitNotify ntfPlain.contentType ntfPlain.body] ∧
    (receiveRequest 0 0 ntfPlain s2).2.filter Eff.isEnded = [] ∧
    (receiveRequest 0 0 ntfPlain s2).2.count Eff.destroySubscription = 0 :=
  C10_thm 0 0 ntfPlain s2 rfl rfl (by decide)

end JsSIPSpec
